import Mathlib

/-!
Verification of the secure path-resolution and scenario-validation core of
the Empyrion tools repository (`utils/security.py`, `scenario_loader.py`).

The Python code is shallowly embedded: path-string manipulation is modelled
exactly (CPython `posixpath` semantics on `List Char`), the filesystem is an
explicit read-only state (`FS`), process environment (cwd, home) is `Env`,
and fallible operations return `Except`.
-/

namespace Empyrion

/-! ## POSIX string helpers (CPython semantics) -/

/-- Python `str.split('/')` on a character list. -/
def splitSep : List Char → List (List Char)
  | [] => [[]]
  | c :: rest =>
    if c = '/' then [] :: splitSep rest
    else
      match splitSep rest with
      | [] => [[c]]
      | g :: gs => (c :: g) :: gs

/-- Python `'/'.join` on a list of components (character lists). -/
def joinSep : List (List Char) → List Char
  | [] => []
  | [x] => x
  | x :: y :: ys => x ++ '/' :: joinSep (y :: ys)

/-- Is `p` a (list-)prefix of `l`? -/
def isPrefL : List Char → List Char → Bool
  | [], _ => true
  | _ :: _, [] => false
  | a :: as, b :: bs => a = b && isPrefL as bs

/-- Python `pat in hay` substring test. -/
def containsSub (hay pat : List Char) : Bool :=
  if isPrefL pat hay then true
  else
    match hay with
    | [] => false
    | _ :: rest => containsSub rest pat

def strContains (s pat : String) : Bool := containsSub s.data pat.data

def strStarts (s pre : String) : Bool := isPrefL pre.data s.data

def strEnds (s suf : String) : Bool := isPrefL suf.data.reverse s.data.reverse

/-- Python `s.split('/')` returning strings. -/
def pySplitSlash (s : String) : List String :=
  (splitSep s.data).map (fun l => ⟨l⟩)

/-- Join string components with a single slash. -/
def joinComps (cs : List String) : String := ⟨joinSep (cs.map String.data)⟩

/-- Render an absolute path from its components: `/a/b/c`; `[] ↦ "/"`. -/
def renderAbs (cs : List String) : String := ⟨'/' :: joinSep (cs.map String.data)⟩

/-- Index of the last occurrence of `c` in `s` (Python `str.rfind`, `none` = -1). -/
def lastIdxOf (s : List Char) (c : Char) : Option Nat :=
  match s.reverse.findIdx? (· = c) with
  | some i => some (s.length - 1 - i)
  | none => none

/-- Python whitespace characters stripped by `str.strip()` (ASCII range). -/
def pyIsSpace (c : Char) : Bool :=
  c = ' ' ∨ c = '\t' ∨ c = '\n' ∨ c = '\x0d' ∨ c = Char.ofNat 11 ∨ c = Char.ofNat 12

/-- Python `str.strip()`. -/
def pyStrip (s : String) : String :=
  ⟨((s.data.dropWhile pyIsSpace).reverse.dropWhile pyIsSpace).reverse⟩

/-- Python `str.lower()` (ASCII case fold; extensions compared are ASCII). -/
def pyLower (s : String) : String := ⟨s.data.map Char.toLower⟩

/-! ## CPython `posixpath` functions -/

/-- CPython `posixpath.basename`: everything after the last slash. -/
def pyBasename (p : String) : String :=
  match lastIdxOf p.data '/' with
  | some i => ⟨p.data.drop (i + 1)⟩
  | none => p

/-- CPython `posixpath.join` for two operands. -/
def pyJoin (a b : String) : String :=
  if strStarts b "/" then b
  else if a = "" ∨ strEnds a "/" then a ++ b
  else a ++ "/" ++ b

/-- CPython `posixpath.splitext`: the extension starts at the last dot after the last
slash, provided some earlier character of the basename is not a dot. -/
def pySplitExt (p : String) : String × String :=
  let s := p.data
  let fnameIdx : Nat := match lastIdxOf s '/' with | some i => i + 1 | none => 0
  match lastIdxOf s '.' with
  | some d =>
    if fnameIdx ≤ d ∧ ((s.drop fnameIdx).take (d - fnameIdx)).any (fun c => c ≠ '.') then
      (⟨s.take d⟩, ⟨s.drop d⟩)
    else (p, "")
  | none => (p, "")

/-- The component-accumulating loop of `posixpath.normpath`. -/
def normLoop (initSlashes : Nat) : List String → List String → List String
  | acc, [] => acc
  | acc, comp :: rest =>
    if comp = "" ∨ comp = "." then normLoop initSlashes acc rest
    else if comp ≠ ".." ∨ (initSlashes = 0 ∧ acc = []) ∨ acc.getLast? = some ".." then
      normLoop initSlashes (acc ++ [comp]) rest
    else if acc ≠ [] then normLoop initSlashes acc.dropLast rest
    else normLoop initSlashes acc rest

/-- The number of leading slashes `posixpath.normpath` preserves (POSIX keeps
a double slash, collapses three or more to one). -/
def initialSlashes (p : String) : Nat :=
  if strStarts p "//" ∧ ¬ strStarts p "///" then 2
  else if strStarts p "/" then 1
  else 0

/-- CPython `posixpath.normpath`. -/
def pyNormPath (p : String) : String :=
  if p = "" then "."
  else
    let k := initialSlashes p
    let comps := normLoop k [] (pySplitSlash p)
    let res : String := ⟨List.replicate k '/' ++ joinSep (comps.map String.data)⟩
    if res = "" then "." else res

structure Env where
  cwd : String
  home : String

/-- CPython `posixpath.abspath` (defined as `normpath(join(getcwd(), path))`). -/
def pyAbsPath (env : Env) (p : String) : String := pyNormPath (pyJoin env.cwd p)

/-- Index of the first '/' in `s`, or `s.length` when there is none. -/
def idxOfSlashOrLen (s : List Char) : Nat :=
  match s.findIdx? (· = '/') with
  | some i => i
  | none => s.length

/-- Strip all trailing slashes (Python `str.rstrip('/')`). -/
def dropTrailSlashes (s : String) : String :=
  ⟨(s.data.reverse.dropWhile (· = '/')).reverse⟩

/-- CPython `posixpath.expanduser`: only a bare leading `~` is expanded with the
configured home; a `~user` form whose user is unknown is returned unchanged
(this model carries no user database, matching CPython's KeyError fallback). -/
def pyExpandUser (env : Env) (p : String) : String :=
  if ¬ strStarts p "~" then p
  else
    let i := 1 + idxOfSlashOrLen (p.data.drop 1)
    if i = 1 then
      let r := dropTrailSlashes env.home ++ (⟨p.data.drop 1⟩ : String)
      if r = "" then "/" else r
    else p

/-- CPython `pathlib.PurePosixPath(p).parts`: split on '/', drop empty and `.`
components, prepend the root part for absolute paths.  (The anonymous root
part is modelled as `"/"`; pathlib's `'//'` root spelling never matters here
because the root part is only tested for membership in a set of non-slash
strings.) -/
def pyPathParts (p : String) : List String :=
  let comps := (pySplitSlash p).filter (fun c => c ≠ "" ∧ c ≠ ".")
  if strStarts p "/" then "/" :: comps else comps

/-- The per-path component filtering done by `posixpath.commonpath`. -/
def pathFilteredComps (p : String) : List String :=
  (pySplitSlash p).filter (fun c => c ≠ "" ∧ c ≠ ".")

/-- Longest common prefix of two component lists. -/
def lcpL : List String → List String → List String
  | [], _ => []
  | _ :: _, [] => []
  | a :: as, b :: bs => if a = b then a :: lcpL as bs else []

/-- CPython `posixpath.commonpath([a, b])`; `none` models the ValueError raised when
absolute and relative paths are mixed.  (CPython takes the common prefix of
the lexicographic min and max of the filtered component lists, which for two
paths is exactly their longest common prefix.) -/
def pyCommonPath2 (a b : String) : Option String :=
  if strStarts a "/" = strStarts b "/" then
    let common := lcpL (pathFilteredComps a) (pathFilteredComps b)
    let pre := if strStarts a "/" then "/" else ""
    some (pre ++ joinComps common)
  else none

/-- CPython `posixpath.relpath(path, start)` (both made absolute first). -/
def pyRelPath (env : Env) (path start : String) : String :=
  let start_list := (pySplitSlash (pyAbsPath env start)).filter (· ≠ "")
  let path_list := (pySplitSlash (pyAbsPath env path)).filter (· ≠ "")
  let i := (lcpL start_list path_list).length
  let rel_list := List.replicate (start_list.length - i) ".." ++ path_list.drop i
  if rel_list = [] then "." else joinComps rel_list

/-! ## The filesystem model

Read-only filesystem state as consumed by `os.path` / `os` / `open` calls.
`getsize` and `readf` may fail (`OSError`, decode errors, TOCTOU races);
the boolean probes are total, as their CPython counterparts are on strings. -/

structure FS where
  pexists : String → Bool
  isdir : String → Bool
  isfile : String → Bool
  access : String → Bool
  getsize : String → Except String Nat
  readf : String → Except String String
  walk : String → List (String × List String × List String)

/-- A filesystem with nothing in it (every probe fails). -/
def fsEmpty : FS :=
  ⟨fun _ => false, fun _ => false, fun _ => false, fun _ => false,
   fun _ => .error "OSError", fun _ => .error "OSError", fun _ => []⟩

/-! ## `utils/security.py` : `PathValidator` -/

/-- Outcome of a validator call: the returned path, or the raised exception
(`ValueError`, `PathTraversalError`, `FileNotFoundError`, `PermissionError`,
`FileSizeError`), carrying its message. -/
inductive VResult where
  | ok (path : String)
  | valueError (msg : String)
  | pathTraversal (msg : String)
  | fileNotFound (msg : String)
  | permissionError (msg : String)
  | fileSizeError (msg : String)
deriving DecidableEq, Repr

def VResult.isPathTraversal : VResult → Bool
  | .pathTraversal _ => true
  | _ => false

def DEFAULT_MAX_FILE_SIZE : Nat := 10 * 1024 * 1024

def DEFAULT_MAX_DIRECTORY_DEPTH : Nat := 10

def DANGEROUS_COMPONENTS : List String := [".", "..", "~", "$"]

def BLOCKED_EXTENSIONS : List String :=
  [".exe", ".bat", ".cmd", ".ps1", ".sh", ".py", ".js"]

structure PathValidator where
  allowed_root : Option String
  max_file_size : Nat
  max_depth : Nat

/-- Source `PathValidator.__init__`: `os.path.abspath(allowed_root) if allowed_root
else None` (an empty string is falsy in Python). -/
def PathValidator.make (env : Env) (allowed_root : Option String)
    (max_file_size : Nat := DEFAULT_MAX_FILE_SIZE)
    (max_depth : Nat := DEFAULT_MAX_DIRECTORY_DEPTH) : PathValidator :=
  { allowed_root :=
      match allowed_root with
      | some r => if r = "" then none else some (pyAbsPath env r)
      | none => none
    max_file_size, max_depth }

/-- One pass of Python `str.replace('//', '/')` (non-overlapping, left to right). -/
def replaceDS : List Char → List Char
  | '/' :: '/' :: rest => '/' :: replaceDS rest
  | c :: rest => c :: replaceDS rest
  | [] => []

/-- Python loop `while '//' in sanitized: sanitized = sanitized.replace('//', '/')` —
every iteration strictly shrinks the string, so `s.length` iterations always
reach the fixpoint; the fuel never runs out. -/
def collapseLoop : Nat → List Char → List Char
  | 0, s => s
  | fuel + 1, s =>
    if containsSub s ['/', '/'] then collapseLoop fuel (replaceDS s) else s

def collapseSlashes (s : List Char) : List Char := collapseLoop s.length s

/-- Source `PathValidator._sanitize_path_string`. -/
def sanitize_path_string (path : String) : String :=
  let sanitized : String := ⟨path.data.filter (fun c => 32 ≤ c.toNat)⟩
  let sanitized : String := ⟨collapseSlashes sanitized.data⟩
  if sanitized.length > 1 ∧ strEnds sanitized "/" then dropTrailSlashes sanitized
  else sanitized

/-- The literal pattern list of `_check_path_traversal` (the third entry
repeats the first; the fourth is `..` followed by two backslashes). -/
def dangerous_patterns : List String := ["../", "..\\", "../", "..\\\\"]

/-- Source `PathValidator._check_path_traversal` on the original (pre-resolution)
path; `.error` carries the `PathTraversalError` message. -/
def check_path_traversal (original_path : String) : Except String Unit :=
  match dangerous_patterns.find? (fun pattern => strContains original_path pattern) with
  | some pattern =>
      .error ("Path traversal detected: " ++ pattern ++ " in " ++ original_path)
  | none =>
      match (pyPathParts original_path).find? (fun part => DANGEROUS_COMPONENTS.contains part) with
      | some part => .error ("Dangerous path component: " ++ part)
      | none => .ok ()

/-- Source `PathValidator._is_within_allowed_root`: `os.path.commonpath` of root and
path must equal the root; a ValueError from `commonpath` yields `False`. -/
def PathValidator.is_within_allowed_root (v : PathValidator) (path : String) : Bool :=
  match v.allowed_root with
  | none => true
  | some root =>
    match pyCommonPath2 root path with
    | some common => common = root
    | none => false

/-- Source `PathValidator.validate_directory_path`.  The `expanduser`/`abspath` calls
are total on pure strings, so the source's `except (OSError, ValueError)`
branch around them cannot fire in this model. -/
def PathValidator.validate_directory_path (v : PathValidator) (env : Env) (fs : FS)
    (user_path : String) : VResult :=
  if user_path = "" then .valueError "Path must be a non-empty string"
  else
    let sanitized_path := sanitize_path_string user_path
    let expanded_path := pyExpandUser env sanitized_path
    let abs_path := pyAbsPath env expanded_path
    match check_path_traversal user_path with
    | .error m => .pathTraversal m
    | .ok _ =>
      if v.allowed_root.isSome ∧ ¬ v.is_within_allowed_root abs_path then
        .pathTraversal ("Path outside allowed directory: " ++ abs_path ++
          " not within " ++ v.allowed_root.getD "")
      else if ¬ fs.pexists abs_path then
        .fileNotFound ("Directory does not exist: " ++ abs_path)
      else if ¬ fs.isdir abs_path then
        .valueError ("Path is not a directory: " ++ abs_path)
      else if ¬ fs.access abs_path then
        .permissionError ("Directory not readable: " ++ abs_path)
      else
        let depth := (pyPathParts abs_path).length
        if depth > v.max_depth then
          .valueError ("Directory depth " ++ toString depth ++
            " exceeds maximum " ++ toString v.max_depth)
        else .ok abs_path

/-- Source `PathValidator.validate_file_path`. -/
def PathValidator.validate_file_path (v : PathValidator) (env : Env) (fs : FS)
    (user_path : String) (must_exist : Bool := true) : VResult :=
  if user_path = "" then .valueError "File path must be a non-empty string"
  else
    let sanitized_path := sanitize_path_string user_path
    let abs_path := pyAbsPath env (pyExpandUser env sanitized_path)
    match check_path_traversal user_path with
    | .error m => .pathTraversal m
    | .ok _ =>
      if v.allowed_root.isSome ∧ ¬ v.is_within_allowed_root abs_path then
        .pathTraversal ("File path outside allowed directory: " ++ abs_path)
      else
        let file_ext := pyLower (pySplitExt abs_path).2
        if BLOCKED_EXTENSIONS.contains file_ext then
          .valueError ("File type not allowed: " ++ file_ext)
        else if must_exist then
          if ¬ fs.pexists abs_path then
            .fileNotFound ("File does not exist: " ++ abs_path)
          else if ¬ fs.isfile abs_path then
            .valueError ("Path is not a file: " ++ abs_path)
          else
            match fs.getsize abs_path with
            | .ok file_size =>
              if file_size > v.max_file_size then
                .fileSizeError ("File too large: " ++ toString file_size ++
                  " bytes (max: " ++ toString v.max_file_size ++ ")")
              else .ok abs_path
            | .error e =>
              .permissionError ("Cannot access file: " ++ abs_path ++ " - " ++ e)
        else .ok abs_path

/-! ## `scenario_loader.py` : `ScenarioLoader`

YAML documents are modelled as a generic tree; `yaml.safe_load` itself is an
external library and enters as a parameter `parse : String → Except String Yaml`
(`.error` = a raised `YAMLError`; a parse of an empty document yields
`Yaml.null`, Python `None`). -/

inductive Yaml where
  | null
  | bool (b : Bool)
  | int (n : Int)
  | str (s : String)
  | list (xs : List Yaml)
  | map (kvs : List (String × Yaml))

/-- Python truthiness of a YAML value (`None`, `0`, `''`, `[]` and the empty
dict are falsy). -/
def pyTruthy : Yaml → Bool
  | .null => false
  | .bool b => b
  | .int n => n ≠ 0
  | .str s => s ≠ ""
  | .list xs => ¬ xs.isEmpty
  | .map kvs => ¬ kvs.isEmpty

/-- Python `needle in xs` for a list value: `==` against each element; a
string only equals a string. -/
def yamlInList (needle : String) (xs : List Yaml) : Bool :=
  xs.any (fun y => match y with | .str s => s = needle | _ => false)

/-- Python `needle in y` (dict key test, list membership, substring for
strings; a TypeError for the remaining kinds). -/
def pyIn (needle : String) : Yaml → Except String Bool
  | .map kvs => .ok (kvs.any (fun kv => kv.1 = needle))
  | .list xs => .ok (yamlInList needle xs)
  | .str s => .ok (strContains s needle)
  | _ => .error "TypeError: argument is not iterable"

/-- Python `y[key]` (`safe_load` mappings have unique keys, so the first
match is the binding; KeyError / TypeError otherwise). -/
def pyGet (y : Yaml) (key : String) : Except String Yaml :=
  match y with
  | .map kvs =>
    match kvs.find? (fun kv => kv.1 = key) with
    | some kv => .ok kv.2
    | none => .error "KeyError"
  | _ => .error "TypeError: not subscriptable"

/-- A Python argument that may be `None`, a string, or of some other type. -/
inductive PyVal where
  | vnone
  | vstr (s : String)
  | vother

def required_files : List String := ["gameoptions.yaml", "description.txt"]

def optional_files : List String :=
  ["SolarSystemConfig.yaml", "RandomSolarSystemConfig.yaml", "preview.jpg",
   "preview.png", "playfield.yaml"]

def file_size_limits : List (String × Nat) :=
  [(".yaml", 10 * 1024 * 1024), (".yml", 10 * 1024 * 1024),
   (".txt", 1 * 1024 * 1024), (".jpg", 5 * 1024 * 1024), (".png", 5 * 1024 * 1024)]

/-- Lookup `self.file_size_limits.get(file_ext, self.max_file_size)`. -/
def lookupLimit (ext : String) (dflt : Nat) : Nat :=
  match file_size_limits.find? (fun kv => kv.1 = ext) with
  | some kv => kv.2
  | none => dflt

structure ScenarioLoader where
  max_file_size : Nat := 10 * 1024 * 1024

/-- The required-files loop of `is_valid_scenario`: `none` models an early
`return False` (unreadable file, size-check `OSError`, or oversized file);
`some missing` is the accumulated `missing_files` list after the loop. -/
def requiredLoop (L : ScenarioLoader) (fs : FS) (d : String) :
    List String → Option (List String)
  | [] => some []
  | required_file :: rest =>
    let file_path := pyJoin d required_file
    if ¬ fs.pexists file_path then
      (requiredLoop L fs d rest).map (fun ms => required_file :: ms)
    else if ¬ fs.access file_path then none
    else
      match fs.getsize file_path with
      | .ok file_size =>
        if file_size > lookupLimit (pyLower (pySplitExt required_file).2) L.max_file_size
        then none
        else requiredLoop L fs d rest
      | .error _ => none

/-- Body of `ScenarioLoader.is_valid_scenario`, in the exception monad: a
`.error` would be an exception escaping to the outer `except` handler. -/
def ScenarioLoader.is_valid_scenario_checked (L : ScenarioLoader) (fs : FS)
    (directory_path : PyVal) : Except String Bool :=
  match directory_path with
  | .vnone => .ok false
  | .vother => .ok false
  | .vstr d =>
    if d = "" then .ok false
    else if ¬ fs.pexists d then .ok false
    else if ¬ fs.isdir d then .ok false
    else if ¬ fs.access d then .ok false
    else
      match requiredLoop L fs d required_files with
      | none => .ok false
      | some missing_files =>
        if missing_files ≠ [] then .ok false
        else
          let gameoptions_path := pyJoin d "gameoptions.yaml"
          match fs.readf gameoptions_path with
          | .ok full =>
            let content : String := ⟨full.data.take 1024⟩
            if pyStrip content = "" then .ok false else .ok true
          | .error _ => .ok false

/-- Source `ScenarioLoader.is_valid_scenario`: the body with the outer
`except Exception: return False` applied. -/
def ScenarioLoader.is_valid_scenario (L : ScenarioLoader) (fs : FS)
    (directory_path : PyVal) : Bool :=
  match L.is_valid_scenario_checked fs directory_path with
  | .ok b => b
  | .error _ => false

/-- Source `ScenarioLoader._load_yaml_file`: the parsed value, with any exception
mapped to Python `None` (`Yaml.null`). -/
def load_yaml_file (fs : FS) (parse : String → Except String Yaml)
    (file_path : String) : Yaml :=
  match fs.readf file_path with
  | .ok s =>
    match parse s with
    | .ok y => y
    | .error _ => .null
  | .error _ => .null

structure PreviewData where
  name : String
  path : String
  description : String
  preview_image : Option String
  game_mode : String
  multiplayer_ready : Bool
deriving DecidableEq, Repr

/-- The `for option_set in gameoptions['Options']` loop of
`get_scenario_preview`.  An exception raised mid-loop propagates to the
surrounding `except: pass`, keeping all mutations made so far. -/
def optionLoop : List Yaml → PreviewData → PreviewData
  | [], pd => pd
  | option_set :: rest, pd =>
    match pyIn "ValidFor" option_set with
    | .error _ => pd
    | .ok false => optionLoop rest pd
    | .ok true =>
      match pyGet option_set "ValidFor" with
      | .error _ => pd
      | .ok valid_for =>
        match pyIn "MP" valid_for with
        | .error _ => pd
        | .ok mp =>
          let pd := if mp then { pd with multiplayer_ready := true } else pd
          match pyIn "SP" valid_for with
          | .error _ => pd
          | .ok sp =>
            if sp then
              match pyIn "Creative" valid_for with
              | .error _ => pd
              | .ok cr =>
                if cr then optionLoop rest { pd with game_mode := "Single Player" }
                else
                  match pyIn "MP" valid_for with
                  | .error _ => pd
                  | .ok mp2 =>
                    if mp2 then optionLoop rest { pd with game_mode := "Multiplayer" }
                    else optionLoop rest pd
            else
              match pyIn "MP" valid_for with
              | .error _ => pd
              | .ok mp2 =>
                if mp2 then optionLoop rest { pd with game_mode := "Multiplayer" }
                else optionLoop rest pd

/-- The `try: ... except: pass` block of `get_scenario_preview` that scans
the loaded game options. -/
def gameOptionsScan (gameoptions : Yaml) (pd : PreviewData) : PreviewData :=
  if pyTruthy gameoptions then
    match pyIn "Options" gameoptions with
    | .error _ => pd
    | .ok false => pd
    | .ok true =>
      match pyGet gameoptions "Options" with
      | .error _ => pd
      | .ok opts =>
        match opts with
        | .list option_sets => optionLoop option_sets pd
        | .map kvs => optionLoop (kvs.map (fun kv => .str kv.1)) pd
        | .str s => optionLoop (s.data.map (fun c => .str ⟨[c]⟩)) pd
        | _ => pd
  else pd

/-- Source `ScenarioLoader.get_scenario_preview`; `.error` is the `ValueError`
raised on an invalid scenario directory. -/
def ScenarioLoader.get_scenario_preview (L : ScenarioLoader) (fs : FS)
    (parse : String → Except String Yaml) (scenario_path : String) :
    Except String PreviewData :=
  if ¬ L.is_valid_scenario fs (.vstr scenario_path) then
    .error ("Invalid scenario directory: " ++ scenario_path)
  else
    let pd : PreviewData :=
      { name := pyBasename scenario_path, path := scenario_path,
        description := "", preview_image := none, game_mode := "Unknown",
        multiplayer_ready := false }
    let desc_path := pyJoin scenario_path "description.txt"
    let pd :=
      if fs.pexists desc_path then
        match fs.readf desc_path with
        | .ok c => { pd with description := pyStrip c }
        | .error _ => { pd with description := "Error reading description" }
      else pd
    let pd :=
      if fs.pexists (pyJoin scenario_path "preview.jpg") then
        { pd with preview_image := some "preview.jpg" }
      else if fs.pexists (pyJoin scenario_path "preview.png") then
        { pd with preview_image := some "preview.png" }
      else pd
    let gameoptions := load_yaml_file fs parse (pyJoin scenario_path "gameoptions.yaml")
    .ok (gameOptionsScan gameoptions pd)

/-- One entry of the `files` mapping of a loaded scenario (the dicts tagged
`'type': 'yaml' | 'text' | 'error'`). -/
inductive FileEntry where
  | yamlEntry (path : String) (content : Yaml)
  | textEntry (path : String) (content : String)
  | errorEntry (path : String) (error : String)

def isErrorEntry : Option FileEntry → Bool
  | some (.errorEntry _ _) => true
  | _ => false

structure StructureInfo where
  directories : List String
  files : List String
  playfields_count : Nat
  prefabs_count : Nat
  has_content : Bool
  has_custom_configs : Bool
deriving DecidableEq, Repr

def initStructure : StructureInfo :=
  { directories := [], files := [], playfields_count := 0, prefabs_count := 0,
    has_content := false, has_custom_configs := false }

/-- The `os.walk` fold of `_analyze_scenario_structure` over the walk
triples `(root, dirs, files)` supplied by the filesystem. -/
def walkLoop (env : Env) (scenario_path : String) :
    List (String × List String × List String) → StructureInfo → StructureInfo
  | [], st => st
  | (root, dirs, files) :: rest, st =>
    let rel_path := pyRelPath env root scenario_path
    let st :=
      if rel_path = "." then { st with files := st.files ++ files }
      else { st with directories := st.directories ++ [rel_path] }
    let st :=
      if strContains rel_path "Playfields" then
        { st with playfields_count :=
            st.playfields_count + (dirs.filter (fun d => ¬ strStarts d ".")).length }
      else if strContains rel_path "Prefabs" then
        { st with prefabs_count :=
            st.prefabs_count + (files.filter (fun f => strEnds f ".epb")).length }
      else if strContains rel_path "Content" then
        let st := { st with has_content := true }
        if files.any (fun f => strEnds f ".ecf") then
          { st with has_custom_configs := true }
        else st
      else st
    walkLoop env scenario_path rest st

/-- Source `ScenarioLoader._analyze_scenario_structure`. -/
def analyze_scenario_structure (env : Env) (fs : FS) (scenario_path : String) :
    StructureInfo :=
  walkLoop env scenario_path (fs.walk scenario_path) initStructure

def config_files : List (String × String) :=
  [("gameoptions.yaml", "Game Options"),
   ("SolarSystemConfig.yaml", "Solar System Config"),
   ("RandomPresets/SolarSystemConfig.yaml", "Random Solar System Config")]

/-- The config-file loading loop of `load_scenario`.  All three configured
paths end in `.yaml`, and `_load_yaml_file` swallows its own exceptions, so
the `'error'` branch can only be reached through the text branch. -/
def loadConfigLoop (fs : FS) (parse : String → Except String Yaml)
    (scenario_path : String) : List (String × String) → List (String × FileEntry)
  | [] => []
  | (file_path, file_name) :: rest =>
    let full_path := pyJoin scenario_path file_path
    if fs.pexists full_path then
      let entry : FileEntry :=
        if strEnds file_path ".yaml" then
          .yamlEntry file_path (load_yaml_file fs parse full_path)
        else
          match fs.readf full_path with
          | .ok c => .textEntry file_path c
          | .error e => .errorEntry file_path e
      (file_name, entry) :: loadConfigLoop fs parse scenario_path rest
    else loadConfigLoop fs parse scenario_path rest

structure ScenarioData where
  metadata : PreviewData
  files : List (String × FileEntry)
  structure_ : StructureInfo

def lookupEntry (files : List (String × FileEntry)) (k : String) : Option FileEntry :=
  (files.find? (fun kv => kv.1 = k)).map (fun kv => kv.2)

/-- Source `ScenarioLoader.load_scenario`; `.error` is the `ValueError` raised on an
invalid scenario directory. -/
def ScenarioLoader.load_scenario (L : ScenarioLoader) (env : Env) (fs : FS)
    (parse : String → Except String Yaml) (scenario_path : String) :
    Except String ScenarioData :=
  if ¬ L.is_valid_scenario fs (.vstr scenario_path) then
    .error ("Invalid scenario directory: " ++ scenario_path)
  else
    match L.get_scenario_preview fs parse scenario_path with
    | .error e => .error e
    | .ok metadata =>
      .ok { metadata
            files := loadConfigLoop fs parse scenario_path config_files
            structure_ := analyze_scenario_structure env fs scenario_path }

/-! ## Lemmas about the path-component machinery -/

/-- A path component as produced by `normpath`/`commonpath` filtering:
non-empty, not `.`, and slash-free. -/
def validComp (c : String) : Bool := c ≠ "" && c ≠ "." && decide ('/' ∉ c.data)

theorem mk_data (s : String) : (⟨s.data⟩ : String) = s := rfl

theorem splitSep_no_sep (x : List Char) (hx : '/' ∉ x) : splitSep x = [x] := by
  induction x with
  | nil => rfl
  | cons c cs ih =>
    have hc : c ≠ '/' := by rintro rfl; exact hx (List.mem_cons_self _ _)
    have hcs : '/' ∉ cs := fun h => hx (List.mem_cons_of_mem _ h)
    simp only [splitSep, if_neg hc, ih hcs]

theorem splitSep_append_sep (x r : List Char) (hx : '/' ∉ x) :
    splitSep (x ++ '/' :: r) = x :: splitSep r := by
  induction x with
  | nil => simp [splitSep]
  | cons c cs ih =>
    have hc : c ≠ '/' := by rintro rfl; exact hx (List.mem_cons_self _ _)
    have hcs : '/' ∉ cs := fun h => hx (List.mem_cons_of_mem _ h)
    simp only [List.cons_append, splitSep, if_neg hc]
    rw [List.append_eq, ih hcs]

theorem splitSep_joinSep (c : List Char) (cs : List (List Char))
    (h : ∀ x ∈ c :: cs, '/' ∉ x) :
    splitSep (joinSep (c :: cs)) = c :: cs := by
  induction cs generalizing c with
  | nil => exact splitSep_no_sep c (h c (by simp))
  | cons d ds ih =>
    have : joinSep (c :: d :: ds) = c ++ '/' :: joinSep (d :: ds) := rfl
    rw [this, splitSep_append_sep c _ (h c (by simp)),
      ih d (fun x hx => h x (by simp at hx ⊢; tauto))]

theorem pathFilteredComps_renderAbs (cs : List String)
    (h : ∀ c ∈ cs, validComp c = true) :
    pathFilteredComps (renderAbs cs) = cs := by
  cases cs with
  | nil => rfl
  | cons c cs' =>
    have hvc : ∀ s ∈ c :: cs', s ≠ "" ∧ s ≠ "." ∧ '/' ∉ s.data := by
      intro s hs
      have := h s hs
      simp only [validComp, Bool.and_eq_true, decide_eq_true_eq] at this
      exact ⟨this.1.1, this.1.2, this.2⟩
    have hns : ∀ x ∈ c.data :: cs'.map String.data, '/' ∉ x := by
      intro x hx
      rcases List.mem_cons.mp hx with rfl | hx'
      · exact (hvc c (by simp)).2.2
      · obtain ⟨s, hs, rfl⟩ := List.mem_map.mp hx'
        exact (hvc s (by simp [hs])).2.2
    have hsplit : splitSep ('/' :: joinSep (c.data :: cs'.map String.data)) =
        [] :: splitSep (joinSep (c.data :: cs'.map String.data)) := by
      simp [splitSep]
    simp only [pathFilteredComps, renderAbs, pySplitSlash, List.map_cons]
    rw [hsplit, splitSep_joinSep _ _ hns]
    have hmk : ∀ s : String, (⟨s.data⟩ : String) = s := fun s => rfl
    simp only [List.map_cons, List.map_map, hmk]
    have hid : cs'.map ((fun l => (⟨l⟩ : String)) ∘ String.data) = cs' := by
      have : ((fun l => (⟨l⟩ : String)) ∘ String.data) = id := by funext s; rfl
      rw [this, List.map_id]
    rw [hid]
    rw [List.filter_cons, List.filter_cons]
    have h0 : (decide ((⟨[]⟩ : String) ≠ "" ∧ (⟨[]⟩ : String) ≠ ".")) = false := by decide
    rw [h0]
    simp only [Bool.false_eq_true, if_false]
    have hc : (decide (c ≠ "" ∧ c ≠ ".")) = true := by
      simp [(hvc c (by simp)).1, (hvc c (by simp)).2.1]
    rw [hc]
    simp only [if_true]
    congr 1
    apply List.filter_eq_self.mpr
    intro s hs
    simp [(hvc s (by simp [hs])).1, (hvc s (by simp [hs])).2.1]

theorem lcpL_eq_left_iff (a b : List String) : lcpL a b = a ↔ a <+: b := by
  induction a generalizing b with
  | nil => cases b <;> simp [lcpL]
  | cons x xs ih =>
    cases b with
    | nil => simp [lcpL]
    | cons y ys =>
      by_cases hxy : x = y
      · subst hxy
        simp [lcpL, List.cons_prefix_cons, ih]
      · simp [lcpL, hxy, List.cons_prefix_cons]

theorem mem_lcpL (a b : List String) : ∀ c ∈ lcpL a b, c ∈ a := by
  induction a generalizing b with
  | nil => simp [lcpL]
  | cons x xs ih =>
    cases b with
    | nil => simp [lcpL]
    | cons y ys =>
      by_cases hxy : x = y
      · subst hxy
        simp only [lcpL, if_pos rfl]
        intro c hc
        rcases List.mem_cons.mp hc with rfl | hc'
        · simp
        · exact List.mem_cons_of_mem _ (ih ys c hc')
      · simp [lcpL, hxy]

theorem isPrefL_slash (l : List Char) :
    isPrefL ['/'] l = true ↔ ∃ t, l = '/' :: t := by
  cases l with
  | nil => simp [isPrefL]
  | cons c t =>
    constructor
    · intro h
      have hc : c = '/' := by
        by_contra hne
        simp [isPrefL, hne] at h
        exact hne h.symm
      exact ⟨t, by rw [hc]⟩
    · rintro ⟨t', ht⟩
      rw [List.cons.injEq] at ht
      obtain ⟨rfl, rfl⟩ := ht
      simp [isPrefL]

theorem strStarts_renderAbs (cs : List String) : strStarts (renderAbs cs) "/" = true := by
  simp [strStarts, renderAbs, isPrefL]

theorem mk_ne_empty (c : Char) (l : List Char) : (⟨c :: l⟩ : String) ≠ "" := by
  intro h
  have : (c :: l) = ("" : String).data := congrArg String.data h
  simp at this

theorem strStarts_append_left (s t : String) (h : strStarts s "/" = true) :
    strStarts (s ++ t) "/" = true := by
  obtain ⟨u, hu⟩ := (isPrefL_slash s.data).mp h
  have hdata : (s ++ t).data = s.data ++ t.data := rfl
  simp only [strStarts, hdata, hu]
  simp [isPrefL]

theorem pyJoin_isAbs (a b : String) (ha : strStarts a "/" = true) :
    strStarts (pyJoin a b) "/" = true := by
  unfold pyJoin
  split
  · assumption
  · split
    · exact strStarts_append_left _ _ ha
    · exact strStarts_append_left _ _ (strStarts_append_left _ _ ha)

theorem pyNormPath_isAbs (p : String) (hp : strStarts p "/" = true) :
    strStarts (pyNormPath p) "/" = true := by
  obtain ⟨t, ht⟩ := (isPrefL_slash p.data).mp hp
  have hpne : p ≠ "" := by
    intro h
    rw [h] at ht
    simp at ht
  have hk : initialSlashes p = 1 ∨ initialSlashes p = 2 := by
    unfold initialSlashes
    by_cases h2 : strStarts p "//" = true ∧ ¬ strStarts p "///" = true
    · rw [if_pos h2]; right; rfl
    · rw [if_neg h2, if_pos hp]; left; rfl
  simp only [pyNormPath, if_neg hpne]
  rcases hk with hk | hk <;> rw [hk]
  · have : List.replicate 1 '/' = ['/'] := rfl
    rw [this]
    simp only [List.cons_append, List.nil_append]
    rw [if_neg (mk_ne_empty _ _)]
    simp [strStarts, isPrefL]
  · have : List.replicate 2 '/' = ['/', '/'] := rfl
    rw [this]
    simp only [List.cons_append, List.nil_append]
    rw [if_neg (mk_ne_empty _ _)]
    simp [strStarts, isPrefL]

theorem pyAbsPath_isAbs (env : Env) (p : String) (hc : strStarts env.cwd "/" = true) :
    strStarts (pyAbsPath env p) "/" = true :=
  pyNormPath_isAbs _ (pyJoin_isAbs _ _ hc)

theorem joinComps_renderAbs (l : List String) : "/" ++ joinComps l = renderAbs l := rfl

/-- Characterization of the containment check: against a canonical root
`renderAbs rcs`, an absolute path is accepted exactly when the root's
component list is a prefix of the path's filtered component list. -/
theorem is_within_iff (v : PathValidator) (rcs : List String) (a : String)
    (hroot : v.allowed_root = some (renderAbs rcs))
    (hrv : ∀ c ∈ rcs, validComp c = true)
    (ha : strStarts a "/" = true) :
    v.is_within_allowed_root a = decide (rcs <+: pathFilteredComps a) := by
  simp only [PathValidator.is_within_allowed_root, hroot, pyCommonPath2,
    strStarts_renderAbs, ha, if_pos rfl, if_true,
    pathFilteredComps_renderAbs rcs hrv]
  have hLv : ∀ c ∈ lcpL rcs (pathFilteredComps a), validComp c = true :=
    fun c hc => hrv c (mem_lcpL _ _ c hc)
  rw [joinComps_renderAbs]
  simp only [decide_eq_decide]
  constructor
  · intro h
    have := congrArg pathFilteredComps h
    rw [pathFilteredComps_renderAbs _ hLv, pathFilteredComps_renderAbs _ hrv] at this
    exact (lcpL_eq_left_iff _ _).mp this
  · intro h
    rw [(lcpL_eq_left_iff _ _).mpr h]

/-- If the containment check fails (with a root configured), the directory
validator raises `PathTraversalError` — either from the lexical check or
from the containment check itself. -/
theorem validate_dir_pt_of_not_within (v : PathValidator) (env : Env) (fs : FS)
    (up : String) (hup : up ≠ "") (hw : v.allowed_root.isSome = true)
    (hnot : v.is_within_allowed_root
      (pyAbsPath env (pyExpandUser env (sanitize_path_string up))) = false) :
    ∃ m, v.validate_directory_path env fs up = .pathTraversal m := by
  cases hct : check_path_traversal up with
  | error m =>
    exact ⟨m, by simp only [PathValidator.validate_directory_path, if_neg hup, hct]⟩
  | ok u =>
    refine ⟨"Path outside allowed directory: " ++
      pyAbsPath env (pyExpandUser env (sanitize_path_string up)) ++
      " not within " ++ v.allowed_root.getD "", ?_⟩
    simp only [PathValidator.validate_directory_path, if_neg hup, hct]
    rw [if_pos ⟨hw, by simp [hnot]⟩]

/-- Concrete fixtures shared by several witnesses. -/
def env1 : Env := ⟨"/home/alice", "/home/alice"⟩

def v1 : PathValidator :=
  { allowed_root := some "/home/alice", max_file_size := DEFAULT_MAX_FILE_SIZE,
    max_depth := DEFAULT_MAX_DIRECTORY_DEPTH }

/-- C1: Containment is a true subdirectory-or-equal test: with a
canonical AllowedRoot `renderAbs rcs` configured, (1) any path whose
canonical absolute form is a strict component-wise ancestor of the root is
rejected by `validate_directory_path` with PathTraversal; (2) any path whose
canonical form merely shares a string prefix with the root without being
component-wise contained in it is likewise rejected; (3) a path equal to the
root or a component-wise descendant of it passes the containment check. -/
theorem c1_containment_is_component_wise
    (env : Env) (fs : FS) (v : PathValidator) (rcs : List String) (up a : String)
    (hcwd : strStarts env.cwd "/" = true)
    (hrv : ∀ c ∈ rcs, validComp c = true)
    (hroot : v.allowed_root = some (renderAbs rcs))
    (hup : up ≠ "")
    (ha : a = pyAbsPath env (pyExpandUser env (sanitize_path_string up))) :
    ((pathFilteredComps a <+: rcs ∧ pathFilteredComps a ≠ rcs) →
        ∃ m, v.validate_directory_path env fs up = .pathTraversal m)
    ∧ ((strStarts a (renderAbs rcs) = true ∧ ¬ rcs <+: pathFilteredComps a) →
        ∃ m, v.validate_directory_path env fs up = .pathTraversal m)
    ∧ (rcs <+: pathFilteredComps a → v.is_within_allowed_root a = true) := by
  have haAbs : strStarts a "/" = true := ha ▸ pyAbsPath_isAbs env _ hcwd
  have hiw := is_within_iff v rcs a hroot hrv haAbs
  have hsome : v.allowed_root.isSome = true := by rw [hroot]; rfl
  refine ⟨?_, ?_, ?_⟩
  · rintro ⟨hpre, hne⟩
    apply validate_dir_pt_of_not_within v env fs up hup hsome
    rw [← ha, hiw]
    simp only [decide_eq_false_iff_not]
    intro hcontra
    exact hne (hcontra.eq_of_length
      (le_antisymm hcontra.length_le hpre.length_le)).symm
  · rintro ⟨-, hnpre⟩
    apply validate_dir_pt_of_not_within v env fs up hup hsome
    rw [← ha, hiw]
    simp [hnpre]
  · intro hpre
    rw [hiw]
    simp [hpre]

/-- Witness for C1: with root `/home/alice`, the strict ancestor `/home` is
rejected with PathTraversal, and the descendant `/home/alice/docs` passes
the containment check. -/
theorem c1_witness :
    (∃ m, v1.validate_directory_path env1 fsEmpty "/home" = .pathTraversal m)
    ∧ v1.is_within_allowed_root "/home/alice/docs" = true := by
  constructor
  · exact (c1_containment_is_component_wise env1 fsEmpty v1 ["home", "alice"]
      "/home" "/home" (by decide) (by decide) (by decide) (by decide)
      (by decide)).1 (by decide)
  · exact (c1_containment_is_component_wise env1 fsEmpty v1 ["home", "alice"]
      "/home/alice/docs" "/home/alice/docs" (by decide) (by decide) (by decide)
      (by decide) (by decide)).2.2 (by decide)

/-- C2 counterexample: `foo\..` contains a `..` component adjacent to a
(backslash-convention) separator, and `./x` contains a `.` component, yet
`validate_directory_path` rejects neither with PathTraversal: both reach the
filesystem checks and fail with FileNotFound on an empty filesystem.  (The
pattern list only catches `..` *followed* by a separator, and pathlib's
`parts` silently drops `.` components, so the `.` entry of
`DANGEROUS_COMPONENTS` is dead.) -/
theorem c2_counterexample :
    strContains "foo\\.." "\\.." = true
    ∧ (PathValidator.make ⟨"/r", "/r"⟩ (some "/r")).validate_directory_path
        ⟨"/r", "/r"⟩ fsEmpty "foo\\.." =
        .fileNotFound "Directory does not exist: /r/foo\\.."
    ∧ (PathValidator.make ⟨"/r", "/r"⟩ (some "/r")).validate_directory_path
        ⟨"/r", "/r"⟩ fsEmpty "./x" =
        .fileNotFound "Directory does not exist: /r/x" := by decide

/-- C2 (amended): Any input containing `..` immediately followed by a
separator (`../` or `..\`), and any input one of whose pathlib components
(which drop `.` and empty components) equals exactly `..`, `~`, or `$`, is
rejected by `validate_directory_path` with PathTraversal, regardless of the
configured AllowedRoot.  (A `..` component only *preceded* by a backslash
separator, and `.` components, are not rejected — see the counterexample.) -/
theorem c2_amended_lexical_rejection (v : PathValidator) (env : Env) (fs : FS)
    (up : String)
    (h : strContains up "../" = true ∨ strContains up "..\\" = true ∨
         (∃ part ∈ pyPathParts up, part ∈ (["..", "~", "$"] : List String))) :
    ∃ m, v.validate_directory_path env fs up = .pathTraversal m := by
  have hne : up ≠ "" := by
    rintro rfl
    rcases h with h | h | ⟨part, hp, -⟩
    · exact absurd h (by decide)
    · exact absurd h (by decide)
    · have hnil : pyPathParts "" = [] := by decide
      rw [hnil] at hp
      exact absurd hp (List.not_mem_nil part)
  have hchk : ∃ m, check_path_traversal up = .error m := by
    unfold check_path_traversal
    cases hfind : dangerous_patterns.find? (fun pattern => strContains up pattern) with
    | some pat => exact ⟨_, rfl⟩
    | none =>
      cases hfind2 : (pyPathParts up).find?
          (fun part => DANGEROUS_COMPONENTS.contains part) with
      | some part => exact ⟨_, rfl⟩
      | none =>
        exfalso
        rw [List.find?_eq_none] at hfind hfind2
        rcases h with h | h | ⟨part, hp, hmem⟩
        · exact hfind "../" (by simp [dangerous_patterns]) h
        · exact hfind "..\\" (by simp [dangerous_patterns]) h
        · rcases (by simpa using hmem : part = ".." ∨ part = "~" ∨ part = "$")
            with rfl | rfl | rfl <;> exact hfind2 _ hp (by decide)
  obtain ⟨m, hm⟩ := hchk
  exact ⟨m, by simp only [PathValidator.validate_directory_path, if_neg hne, hm]⟩

/-- Witness for C2 (amended): `../x` is rejected with PathTraversal. -/
theorem c2_witness :
    ∃ m, v1.validate_directory_path env1 fsEmpty "../x" = .pathTraversal m :=
  c2_amended_lexical_rejection v1 env1 fsEmpty "../x" (Or.inl (by decide))

theorem isPrefL_self_append (a y : List Char) : isPrefL a (a ++ y) = true := by
  induction a with
  | nil => simp [isPrefL]
  | cons c cs ih => simp [isPrefL, ih]

theorem containsSub_middle (x a y : List Char) : containsSub (x ++ (a ++ y)) a = true := by
  induction x with
  | nil =>
    rw [List.nil_append, containsSub.eq_def, if_pos (isPrefL_self_append a y)]
  | cons c x ih =>
    by_cases h : isPrefL a (c :: (x ++ (a ++ y))) = true
    · rw [List.cons_append, containsSub.eq_def, if_pos h]
    · rw [List.cons_append, containsSub.eq_def, if_neg h]
      exact ih

theorem strContains_concat4 (p a q r : String) : strContains (p ++ a ++ q ++ r) a = true := by
  show containsSub (((p.data ++ a.data) ++ q.data) ++ r.data) a.data = true
  simp only [List.append_assoc]
  exact containsSub_middle _ _ _

theorem strContains_append2 (p a : String) : strContains (p ++ a) a = true := by
  show containsSub (p.data ++ a.data) a.data = true
  simpa using containsSub_middle p.data a.data []

/-- C3: ValidatedPath postcondition: whenever `validate_directory_path`
succeeds against a configured canonical AllowedRoot `renderAbs rcs`, the
returned string is an absolute path that, on the filesystem state consulted
during validation, exists, is a directory, is readable, lies component-wise
within the root, and whose pathlib part count does not exceed `max_depth`. -/
theorem c3_validated_path_postcondition
    (env : Env) (fs : FS) (v : PathValidator) (rcs : List String) (up r : String)
    (hcwd : strStarts env.cwd "/" = true)
    (hrv : ∀ c ∈ rcs, validComp c = true)
    (hroot : v.allowed_root = some (renderAbs rcs))
    (hok : v.validate_directory_path env fs up = .ok r) :
    strStarts r "/" = true ∧ fs.pexists r = true ∧ fs.isdir r = true
    ∧ fs.access r = true ∧ rcs <+: pathFilteredComps r
    ∧ (pyPathParts r).length ≤ v.max_depth := by
  by_cases hup : up = ""
  · rw [hup] at hok
    exact absurd hok (by simp [PathValidator.validate_directory_path])
  simp only [PathValidator.validate_directory_path, if_neg hup] at hok
  cases hct : check_path_traversal up with
  | error m =>
    rw [hct] at hok
    exact absurd hok (by simp)
  | ok u =>
    rw [hct] at hok
    simp only [] at hok
    split_ifs at hok with h1 h2 h3 h4 h5 <;> simp only [VResult.ok.injEq] at hok <;>
      try simp at hok
    subst hok
    have haAbs := pyAbsPath_isAbs env (pyExpandUser env (sanitize_path_string up)) hcwd
    have hsome : v.allowed_root.isSome = true := by rw [hroot]; rfl
    have hwithin : v.is_within_allowed_root
        (pyAbsPath env (pyExpandUser env (sanitize_path_string up))) = true := by
      by_contra hc
      exact h1 ⟨hsome, hc⟩
    have hpre : rcs <+: pathFilteredComps
        (pyAbsPath env (pyExpandUser env (sanitize_path_string up))) := by
      have hiw := is_within_iff v rcs _ hroot hrv haAbs
      rw [hwithin] at hiw
      exact of_decide_eq_true hiw.symm
    exact ⟨haAbs, h2, h3, h4, hpre, Nat.le_of_not_lt h5⟩

/-- Filesystem fixture for the C3 witness: a single readable directory. -/
def fs3 : FS :=
  { pexists := fun p => p == "/home/alice/docs",
    isdir := fun p => p == "/home/alice/docs",
    isfile := fun _ => false,
    access := fun p => p == "/home/alice/docs",
    getsize := fun _ => .error "OSError",
    readf := fun _ => .error "OSError",
    walk := fun _ => [] }

/-- Witness for C3 at a concrete successful validation. -/
theorem c3_witness :
    strStarts "/home/alice/docs" "/" = true
    ∧ fs3.pexists "/home/alice/docs" = true ∧ fs3.isdir "/home/alice/docs" = true
    ∧ fs3.access "/home/alice/docs" = true
    ∧ ["home", "alice"] <+: pathFilteredComps "/home/alice/docs"
    ∧ (pyPathParts "/home/alice/docs").length ≤ v1.max_depth :=
  c3_validated_path_postcondition env1 fs3 v1 ["home", "alice"]
    "/home/alice/docs" "/home/alice/docs" (by decide) (by decide) (by decide)
    (by decide)

/-- C4 counterexample: When the containment check fails, the
PathTraversal message *does* contain the resolved absolute path outside
AllowedRoot (here `/etc`), contradicting the non-disclosure claim. -/
theorem c4_counterexample :
    v1.validate_directory_path env1 fsEmpty "/etc" =
      .pathTraversal "Path outside allowed directory: /etc not within /home/alice"
    ∧ strContains "Path outside allowed directory: /etc not within /home/alice"
        "/etc" = true := by decide

/-- C4 (amended): When the containment check against AllowedRoot fails
(and the lexical check passed), the user-facing PathTraversal message of
`validate_directory_path` embeds the resolved absolute path (and the allowed
root), and that of `validate_file_path` embeds the resolved absolute path. -/
theorem c4_amended_message_discloses_path (v : PathValidator) (env : Env) (fs : FS)
    (up a : String)
    (hup : up ≠ "")
    (hlex : check_path_traversal up = .ok ())
    (ha : a = pyAbsPath env (pyExpandUser env (sanitize_path_string up)))
    (hsome : v.allowed_root.isSome = true)
    (hout : v.is_within_allowed_root a = false) :
    (v.validate_directory_path env fs up =
        .pathTraversal ("Path outside allowed directory: " ++ a ++
          " not within " ++ v.allowed_root.getD "")
      ∧ strContains ("Path outside allowed directory: " ++ a ++
          " not within " ++ v.allowed_root.getD "") a = true)
    ∧ (v.validate_file_path env fs up true =
        .pathTraversal ("File path outside allowed directory: " ++ a)
      ∧ strContains ("File path outside allowed directory: " ++ a) a = true) := by
  subst ha
  refine ⟨⟨?_, strContains_concat4 _ _ _ _⟩, ⟨?_, strContains_append2 _ _⟩⟩
  · simp only [PathValidator.validate_directory_path, if_neg hup, hlex]
    rw [if_pos ⟨hsome, by simp [hout]⟩]
  · simp only [PathValidator.validate_file_path, if_neg hup, hlex]
    rw [if_pos ⟨hsome, by simp [hout]⟩]

/-- Witness for C4 (amended) at `/etc` against root `/home/alice`. -/
theorem c4_witness :
    (v1.validate_directory_path env1 fsEmpty "/etc" =
        .pathTraversal ("Path outside allowed directory: " ++ "/etc" ++
          " not within " ++ v1.allowed_root.getD "")
      ∧ strContains ("Path outside allowed directory: " ++ "/etc" ++
          " not within " ++ v1.allowed_root.getD "") "/etc" = true)
    ∧ (v1.validate_file_path env1 fsEmpty "/etc" true =
        .pathTraversal ("File path outside allowed directory: " ++ "/etc")
      ∧ strContains ("File path outside allowed directory: " ++ "/etc") "/etc" = true) :=
  c4_amended_message_discloses_path v1 env1 fsEmpty "/etc" "/etc" (by decide) rfl
    (by decide) (by decide) (by decide)

/-- The scenario-validation body never lets an exception escape: every
fallible filesystem call it makes sits inside a local handler. -/
theorem is_valid_scenario_checked_ne_error (L : ScenarioLoader) (fs : FS)
    (v : PyVal) (e : String) : L.is_valid_scenario_checked fs v ≠ .error e := by
  intro h
  cases v with
  | vnone => exact absurd h (by simp [ScenarioLoader.is_valid_scenario_checked])
  | vother => exact absurd h (by simp [ScenarioLoader.is_valid_scenario_checked])
  | vstr d =>
    simp only [ScenarioLoader.is_valid_scenario_checked] at h
    by_cases h1 : d = ""
    · rw [if_pos h1] at h; exact absurd h (by simp)
    rw [if_neg h1] at h
    by_cases h2 : fs.pexists d = true
    case neg => rw [if_pos h2] at h; exact absurd h (by simp)
    rw [if_neg (not_not_intro h2)] at h
    by_cases h3 : fs.isdir d = true
    case neg => rw [if_pos h3] at h; exact absurd h (by simp)
    rw [if_neg (not_not_intro h3)] at h
    by_cases h4 : fs.access d = true
    case neg => rw [if_pos h4] at h; exact absurd h (by simp)
    rw [if_neg (not_not_intro h4)] at h
    cases hrl : requiredLoop L fs d required_files with
    | none => rw [hrl] at h; exact absurd h (by simp)
    | some missing =>
      rw [hrl] at h
      simp only [] at h
      by_cases hm : missing = []
      · subst hm
        rw [if_neg (by simp)] at h
        cases hrd : fs.readf (pyJoin d "gameoptions.yaml") with
        | ok full =>
          rw [hrd] at h
          simp only [] at h
          by_cases hb : pyStrip ⟨full.data.take 1024⟩ = ""
          · rw [if_pos hb] at h; exact absurd h (by simp)
          · rw [if_neg hb] at h; exact absurd h (by simp)
        | error e2 => rw [hrd] at h; exact absurd h (by simp)
      · rw [if_pos hm] at h; exact absurd h (by simp)

/-- C5: Totality of the scenario detector: for any input — `None`, the
empty string, any string (existing or not), or a non-string value — the
checked body of `is_valid_scenario` returns `ok` of the boolean that the
exception-guarded function returns; no exception ever escapes. -/
theorem c5_is_valid_scenario_total (L : ScenarioLoader) (fs : FS) (v : PyVal) :
    L.is_valid_scenario_checked fs v = Except.ok (L.is_valid_scenario fs v) := by
  cases hchk : L.is_valid_scenario_checked fs v with
  | ok b =>
    unfold ScenarioLoader.is_valid_scenario
    rw [hchk]
  | error e => exact absurd hchk (is_valid_scenario_checked_ne_error L fs v e)

theorem map_cons_ne_some_nil (o : Option (List String)) (f : String) :
    o.map (fun ms => f :: ms) ≠ some [] := by
  cases o <;> simp

/-- One step of the required-files loop ending cleanly forces the head file
to exist, be readable, and be within its size limit, and the rest of the
loop to end cleanly too. -/
theorem requiredLoop_cons_some_nil (L : ScenarioLoader) (fs : FS) (d f : String)
    (rest : List String)
    (h : requiredLoop L fs d (f :: rest) = some []) :
    fs.pexists (pyJoin d f) = true ∧ fs.access (pyJoin d f) = true
    ∧ (∀ n, fs.getsize (pyJoin d f) = .ok n →
        n ≤ lookupLimit (pyLower (pySplitExt f).2) L.max_file_size)
    ∧ requiredLoop L fs d rest = some [] := by
  rw [requiredLoop] at h
  by_cases h1 : fs.pexists (pyJoin d f) = true
  case neg => rw [if_pos h1] at h; exact absurd h (map_cons_ne_some_nil _ _)
  rw [if_neg (not_not_intro h1)] at h
  by_cases h2 : fs.access (pyJoin d f) = true
  case neg => rw [if_pos h2] at h; exact absurd h (by simp)
  rw [if_neg (not_not_intro h2)] at h
  cases hg : fs.getsize (pyJoin d f) with
  | error e => rw [hg] at h; exact absurd h (by simp)
  | ok n =>
    rw [hg] at h
    simp only [] at h
    by_cases h3 : n > lookupLimit (pyLower (pySplitExt f).2) L.max_file_size
    · rw [if_pos h3] at h; exact absurd h (by simp)
    · rw [if_neg h3] at h
      refine ⟨h1, h2, ?_, h⟩
      intro n' hn'
      injection hn' with hh
      omega

/-- If the required-files loop finishes with an empty missing list, both
required files exist and any size the filesystem reports for them is within
the per-extension limits (10 MiB for `.yaml`, 1 MiB for `.txt`). -/
theorem requiredLoop_some_nil (L : ScenarioLoader) (fs : FS) (d : String)
    (h : requiredLoop L fs d required_files = some []) :
    fs.pexists (pyJoin d "gameoptions.yaml") = true
    ∧ fs.pexists (pyJoin d "description.txt") = true
    ∧ (∀ n, fs.getsize (pyJoin d "gameoptions.yaml") = .ok n → n ≤ 10 * 1024 * 1024)
    ∧ (∀ n, fs.getsize (pyJoin d "description.txt") = .ok n → n ≤ 1024 * 1024) := by
  have hl1 : lookupLimit (pyLower (pySplitExt "gameoptions.yaml").2) L.max_file_size
      = 10 * 1024 * 1024 := rfl
  have hl2 : lookupLimit (pyLower (pySplitExt "description.txt").2) L.max_file_size
      = 1024 * 1024 := rfl
  rw [required_files] at h
  obtain ⟨he1, -, hs1, h'⟩ := requiredLoop_cons_some_nil L fs d _ _ h
  obtain ⟨he2, -, hs2, -⟩ := requiredLoop_cons_some_nil L fs d _ _ h'
  exact ⟨he1, he2, fun n hn => hl1 ▸ hs1 n hn, fun n hn => hl2 ▸ hs2 n hn⟩

/-- C6: `is_valid_scenario` returns `false` whenever a required manifest
file (`gameoptions.yaml` or `description.txt`) is absent, whenever a
required file's reported size exceeds its extension's configured limit
(10 MiB for `.yaml`, 1 MiB for `.txt`), or whenever the first kilobyte of
`gameoptions.yaml` strips to the empty string. -/
theorem c6_rejection_conditions (L : ScenarioLoader) (fs : FS) (d : String)
    (h : fs.pexists (pyJoin d "gameoptions.yaml") = false
       ∨ fs.pexists (pyJoin d "description.txt") = false
       ∨ (∃ n, fs.getsize (pyJoin d "gameoptions.yaml") = .ok n ∧ n > 10 * 1024 * 1024)
       ∨ (∃ n, fs.getsize (pyJoin d "description.txt") = .ok n ∧ n > 1024 * 1024)
       ∨ (∃ c, fs.readf (pyJoin d "gameoptions.yaml") = .ok c
           ∧ pyStrip ⟨c.data.take 1024⟩ = "")) :
    L.is_valid_scenario fs (.vstr d) = false := by
  unfold ScenarioLoader.is_valid_scenario
  cases hchk : L.is_valid_scenario_checked fs (.vstr d) with
  | error e => rfl
  | ok b =>
    cases b with
    | false => rfl
    | true =>
      exfalso
      simp only [ScenarioLoader.is_valid_scenario_checked] at hchk
      by_cases h1 : d = ""
      · rw [if_pos h1] at hchk; exact absurd hchk (by simp)
      rw [if_neg h1] at hchk
      by_cases h2 : fs.pexists d = true
      case neg => rw [if_pos h2] at hchk; exact absurd hchk (by simp)
      rw [if_neg (not_not_intro h2)] at hchk
      by_cases h3 : fs.isdir d = true
      case neg => rw [if_pos h3] at hchk; exact absurd hchk (by simp)
      rw [if_neg (not_not_intro h3)] at hchk
      by_cases h4 : fs.access d = true
      case neg => rw [if_pos h4] at hchk; exact absurd hchk (by simp)
      rw [if_neg (not_not_intro h4)] at hchk
      cases hrl : requiredLoop L fs d required_files with
      | none => rw [hrl] at hchk; exact absurd hchk (by simp)
      | some missing =>
        rw [hrl] at hchk
        simp only [] at hchk
        by_cases hm : missing = []
        case neg => rw [if_pos hm] at hchk; exact absurd hchk (by simp)
        subst hm
        rw [if_neg (by simp)] at hchk
        obtain ⟨hg1, hg2, hs1, hs2⟩ := requiredLoop_some_nil L fs d hrl
        cases hrd : fs.readf (pyJoin d "gameoptions.yaml") with
        | error e => rw [hrd] at hchk; exact absurd hchk (by simp)
        | ok full =>
          rw [hrd] at hchk
          simp only [] at hchk
          by_cases hblank : pyStrip ⟨full.data.take 1024⟩ = ""
          · rw [if_pos hblank] at hchk; exact absurd hchk (by simp)
          · rcases h with ha | ha | ⟨n, hn, hgt⟩ | ⟨n, hn, hgt⟩ | ⟨c, hc, hcblank⟩
            · rw [hg1] at ha; exact absurd ha (by simp)
            · rw [hg2] at ha; exact absurd ha (by simp)
            · exact absurd (hs1 n hn) (by omega)
            · exact absurd (hs2 n hn) (by omega)
            · rw [hrd] at hc
              injection hc with hc'
              subst hc'
              exact hblank hcblank

/-- Filesystem fixture for the C6 witness: a directory whose description
file exists but whose `gameoptions.yaml` is absent. -/
def fs6 : FS :=
  { pexists := fun p => p == "/s" || p == "/s/description.txt",
    isdir := fun p => p == "/s",
    isfile := fun p => p == "/s/description.txt",
    access := fun _ => true,
    getsize := fun _ => .ok 10,
    readf := fun _ => .error "OSError",
    walk := fun _ => [] }

/-- Witness for C6: the scenario with only a description file is rejected. -/
theorem c6_witness : ScenarioLoader.is_valid_scenario {} fs6 (.vstr "/s") = false :=
  c6_rejection_conditions {} fs6 "/s" (Or.inl (by decide))

def isYamlNullEntry : Option FileEntry → Bool
  | some (.yamlEntry _ .null) => true
  | _ => false

/-- On a valid scenario directory the preview computation always succeeds. -/
theorem preview_ok_of_valid (L : ScenarioLoader) (fs : FS)
    (parse : String → Except String Yaml) (d : String)
    (hvalid : L.is_valid_scenario fs (.vstr d) = true) :
    ∃ pd, L.get_scenario_preview fs parse d = .ok pd := by
  unfold ScenarioLoader.get_scenario_preview
  rw [if_neg (not_not_intro hvalid)]
  exact ⟨_, rfl⟩

/-- Scenario-directory fixture for C7: a valid scenario whose
`SolarSystemConfig.yaml` is present but unparseable. -/
def fs7 : FS :=
  { pexists := fun p => p == "/s" || p == "/s/gameoptions.yaml" ||
      p == "/s/description.txt" || p == "/s/SolarSystemConfig.yaml",
    isdir := fun p => p == "/s",
    isfile := fun p => p == "/s/gameoptions.yaml" || p == "/s/description.txt" ||
      p == "/s/SolarSystemConfig.yaml",
    access := fun _ => true,
    getsize := fun _ => .ok 100,
    readf := fun p =>
      if p == "/s/gameoptions.yaml" then .ok "Options: none"
      else if p == "/s/description.txt" then .ok "A scenario"
      else if p == "/s/SolarSystemConfig.yaml" then .ok "corrupt"
      else .error "OSError",
    walk := fun _ => [] }

/-- Parser fixture for C7: the game-options document parses; anything else
raises a YAML error. -/
def parse7 : String → Except String Yaml := fun s =>
  if s == "Options: none" then .ok (.map [("Options", .null)]) else .error "YAMLError"

/-- C7 counterexample: With a corrupted `SolarSystemConfig.yaml`,
`load_scenario` succeeds, but the `Solar System Config` entry of the file
mapping is *not* an error-tagged entry: `_load_yaml_file` swallows the parse
failure and the entry is a normal yaml-tagged entry with null content. -/
theorem c7_counterexample :
    (ScenarioLoader.load_scenario {} ⟨"/", "/"⟩ fs7 parse7 "/s").toOption.map
      (fun data =>
        (isErrorEntry (lookupEntry data.files "Solar System Config"),
         isYamlNullEntry (lookupEntry data.files "Solar System Config"))) =
      some (false, true) := by decide

/-- C7 (amended): For a valid scenario whose primary options file parses
while its solar-system file exists and fails to parse, `load_scenario`
succeeds overall; the `Game Options` entry is a normal yaml entry holding
the parsed document, and the `Solar System Config` entry is a yaml-tagged
entry whose content is null (Python `None`) — not an error-tagged entry. -/
theorem c7_amended_parse_failure_yields_null_entry
    (L : ScenarioLoader) (env : Env) (fs : FS) (parse : String → Except String Yaml)
    (d cg cs : String) (yg : Yaml) (es : String)
    (hvalid : L.is_valid_scenario fs (.vstr d) = true)
    (hex_g : fs.pexists (pyJoin d "gameoptions.yaml") = true)
    (hex_s : fs.pexists (pyJoin d "SolarSystemConfig.yaml") = true)
    (hread_g : fs.readf (pyJoin d "gameoptions.yaml") = .ok cg)
    (hparse_g : parse cg = .ok yg)
    (hread_s : fs.readf (pyJoin d "SolarSystemConfig.yaml") = .ok cs)
    (hparse_s : parse cs = .error es) :
    ∃ data, L.load_scenario env fs parse d = .ok data
      ∧ lookupEntry data.files "Game Options" =
          some (.yamlEntry "gameoptions.yaml" yg)
      ∧ lookupEntry data.files "Solar System Config" =
          some (.yamlEntry "SolarSystemConfig.yaml" Yaml.null) := by
  obtain ⟨pd, hpd⟩ := preview_ok_of_valid L fs parse d hvalid
  have hfiles : loadConfigLoop fs parse d config_files =
      ("Game Options", .yamlEntry "gameoptions.yaml" yg) ::
      ("Solar System Config", .yamlEntry "SolarSystemConfig.yaml" Yaml.null) ::
      loadConfigLoop fs parse d [("RandomPresets/SolarSystemConfig.yaml",
        "Random Solar System Config")] := by
    rw [config_files, loadConfigLoop, if_pos hex_g]
    rw [if_pos (by decide : strEnds "gameoptions.yaml" ".yaml" = true)]
    rw [loadConfigLoop, if_pos hex_s]
    rw [if_pos (by decide : strEnds "SolarSystemConfig.yaml" ".yaml" = true)]
    simp only [load_yaml_file, hread_g, hparse_g, hread_s, hparse_s]
  refine ⟨{ metadata := pd, files := loadConfigLoop fs parse d config_files,
            structure_ := analyze_scenario_structure env fs d }, ?_, ?_, ?_⟩
  · unfold ScenarioLoader.load_scenario
    rw [if_neg (not_not_intro hvalid), hpd]
  · simp only [hfiles, lookupEntry, List.find?]
    rfl
  · simp only [hfiles, lookupEntry, List.find?]
    rfl

/-- Witness for C7 (amended) on the concrete fixture. -/
theorem c7_witness :
    ∃ data, ScenarioLoader.load_scenario {} ⟨"/", "/"⟩ fs7 parse7 "/s" = .ok data
      ∧ lookupEntry data.files "Game Options" =
          some (.yamlEntry "gameoptions.yaml" (.map [("Options", .null)]))
      ∧ lookupEntry data.files "Solar System Config" =
          some (.yamlEntry "SolarSystemConfig.yaml" Yaml.null) :=
  c7_amended_parse_failure_yields_null_entry {} ⟨"/", "/"⟩ fs7 parse7 "/s"
    "Options: none" "corrupt" (.map [("Options", .null)]) "YAMLError"
    (by decide) (by decide) (by decide) rfl rfl rfl rfl

/-- The game-options loop never touches the `name`/`description` fields. -/
theorem optionLoop_name_desc (sets : List Yaml) (pd : PreviewData) :
    (optionLoop sets pd).name = pd.name
    ∧ (optionLoop sets pd).description = pd.description := by
  induction sets generalizing pd with
  | nil => exact ⟨rfl, rfl⟩
  | cons s rest ih =>
    simp only [optionLoop]
    repeat' split
    all_goals first
      | exact ⟨rfl, rfl⟩
      | simpa using ih _

/-- The whole game-options scan never touches `name`/`description`. -/
theorem gameOptionsScan_name_desc (go : Yaml) (pd : PreviewData) :
    (gameOptionsScan go pd).name = pd.name
    ∧ (gameOptionsScan go pd).description = pd.description := by
  unfold gameOptionsScan
  repeat' split
  all_goals first
    | exact ⟨rfl, rfl⟩
    | simpa using optionLoop_name_desc _ _

/-- Scenario fixture for the C8 counterexample: valid scenario whose
description file exists and passes the access check but fails on read. -/
def fs8 : FS :=
  { pexists := fun p => p == "/s" || p == "/s/gameoptions.yaml" ||
      p == "/s/description.txt",
    isdir := fun p => p == "/s",
    isfile := fun p => p == "/s/gameoptions.yaml" || p == "/s/description.txt",
    access := fun _ => true,
    getsize := fun _ => .ok 100,
    readf := fun p =>
      if p == "/s/gameoptions.yaml" then .ok "Options: none" else .error "boom",
    walk := fun _ => [] }

/-- C8 counterexample: When reading the description file fails, the
preview still succeeds but its `description` is the literal string
`Error reading description`, not the empty string the claim requires. -/
theorem c8_counterexample :
    (ScenarioLoader.get_scenario_preview {} fs8 parse7 "/s").toOption.map
      (fun pd => pd.description) = some "Error reading description"
    ∧ "Error reading description" ≠ "" := by decide

/-- C8 (amended): For a directory holding a well-formed primary options
file and a readable description file, `is_valid_scenario` is true and the
preview's `name` is the directory's base name; its `description` is the
file's stripped contents when the read succeeds, and the literal string
`Error reading description` (not the empty string) when the read fails. -/
theorem c8_amended_preview_roundtrip
    (L : ScenarioLoader) (fs : FS) (parse : String → Except String Yaml)
    (d cg : String) (ng nd : Nat)
    (hne : d ≠ "")
    (hd_ex : fs.pexists d = true) (hd_dir : fs.isdir d = true)
    (hd_acc : fs.access d = true)
    (hg_ex : fs.pexists (pyJoin d "gameoptions.yaml") = true)
    (hg_acc : fs.access (pyJoin d "gameoptions.yaml") = true)
    (hg_size : fs.getsize (pyJoin d "gameoptions.yaml") = .ok ng)
    (hgn : ng ≤ 10 * 1024 * 1024)
    (hd2_ex : fs.pexists (pyJoin d "description.txt") = true)
    (hd2_acc : fs.access (pyJoin d "description.txt") = true)
    (hd2_size : fs.getsize (pyJoin d "description.txt") = .ok nd)
    (hdn : nd ≤ 1024 * 1024)
    (hg_read : fs.readf (pyJoin d "gameoptions.yaml") = .ok cg)
    (hg_blank : pyStrip ⟨cg.data.take 1024⟩ ≠ "") :
    L.is_valid_scenario fs (.vstr d) = true
    ∧ (∀ c, fs.readf (pyJoin d "description.txt") = .ok c →
        ∃ pd, L.get_scenario_preview fs parse d = .ok pd
          ∧ pd.name = pyBasename d ∧ pd.description = pyStrip c)
    ∧ (∀ e, fs.readf (pyJoin d "description.txt") = .error e →
        ∃ pd, L.get_scenario_preview fs parse d = .ok pd
          ∧ pd.name = pyBasename d
          ∧ pd.description = "Error reading description") := by
  have hL1 : lookupLimit (pyLower (pySplitExt "gameoptions.yaml").2) L.max_file_size
      = 10 * 1024 * 1024 := rfl
  have hL2 : lookupLimit (pyLower (pySplitExt "description.txt").2) L.max_file_size
      = 1024 * 1024 := rfl
  have hrl : requiredLoop L fs d required_files = some [] := by
    rw [required_files, requiredLoop, if_neg (not_not_intro hg_ex),
      if_neg (not_not_intro hg_acc), hg_size]
    simp only []
    rw [hL1, if_neg (by omega)]
    rw [requiredLoop, if_neg (not_not_intro hd2_ex),
      if_neg (not_not_intro hd2_acc), hd2_size]
    simp only []
    rw [hL2, if_neg (by omega)]
    rfl
  have hchk : L.is_valid_scenario_checked fs (.vstr d) = .ok true := by
    simp only [ScenarioLoader.is_valid_scenario_checked]
    rw [if_neg hne, if_neg (not_not_intro hd_ex), if_neg (not_not_intro hd_dir),
      if_neg (not_not_intro hd_acc), hrl]
    simp only []
    rw [if_neg (by simp), hg_read]
    simp only []
    rw [if_neg hg_blank]
  have hvalid : L.is_valid_scenario fs (.vstr d) = true := by
    unfold ScenarioLoader.is_valid_scenario
    rw [hchk]
  refine ⟨hvalid, ?_, ?_⟩
  · intro c hc
    obtain ⟨pd, hpd⟩ := preview_ok_of_valid L fs parse d hvalid
    refine ⟨pd, hpd, ?_⟩
    simp only [ScenarioLoader.get_scenario_preview] at hpd
    rw [if_neg (not_not_intro hvalid), if_pos hd2_ex, hc] at hpd
    simp only [] at hpd
    injection hpd with hpd'
    subst hpd'
    refine ⟨?_, ?_⟩
    · rw [(gameOptionsScan_name_desc _ _).1]
      split_ifs <;> rfl
    · rw [(gameOptionsScan_name_desc _ _).2]
      split_ifs <;> rfl
  · intro e he
    obtain ⟨pd, hpd⟩ := preview_ok_of_valid L fs parse d hvalid
    refine ⟨pd, hpd, ?_⟩
    simp only [ScenarioLoader.get_scenario_preview] at hpd
    rw [if_neg (not_not_intro hvalid), if_pos hd2_ex, he] at hpd
    simp only [] at hpd
    injection hpd with hpd'
    subst hpd'
    refine ⟨?_, ?_⟩
    · rw [(gameOptionsScan_name_desc _ _).1]
      split_ifs <;> rfl
    · rw [(gameOptionsScan_name_desc _ _).2]
      split_ifs <;> rfl

/-- Witness for C8 (amended), read-failure branch, on the concrete fixture. -/
theorem c8_witness :
    ∃ pd, ScenarioLoader.get_scenario_preview {} fs8 parse7 "/s" = .ok pd
      ∧ pd.name = pyBasename "/s" ∧ pd.description = "Error reading description" :=
  (c8_amended_preview_roundtrip {} fs8 parse7 "/s" "Options: none" 100 100
    (by decide) (by decide) (by decide) (by decide) (by decide) (by decide)
    rfl (by decide) (by decide) (by decide) rfl (by decide) rfl
    (by decide)).2.2 "boom" rfl

/-- A well-shaped option group: a mapping with a `ValidFor` list of string
markers. -/
def mkValidForGroup (vf : List String) : Yaml :=
  .map [("ValidFor", .list (vf.map .str))]

/-- The per-group label update of the source loop, folded over the groups:
`SP`+`Creative` sets `Single Player` (beating `MP` in the same group),
otherwise `MP` sets `Multiplayer`, otherwise the label is left alone — so
the *last* group carrying a relevant marker decides the final label. -/
def specGameMode : List (List String) → String → String
  | [], m => m
  | g :: rest, m =>
    specGameMode rest
      (if g.contains "SP" ∧ g.contains "Creative" then "Single Player"
       else if g.contains "MP" then "Multiplayer" else m)

theorem pyIn_str_list (needle : String) (g : List String) :
    pyIn needle (.list (g.map .str)) = .ok (decide (needle ∈ g)) := by
  simp only [pyIn, yamlInList]
  congr 1
  induction g with
  | nil => rfl
  | cons x xs ih =>
    simp only [List.map_cons, List.any_cons, ih]
    by_cases hx : x = needle
    · simp [hx, List.mem_cons]
    · simp [hx, Ne.symm hx, List.mem_cons]

/-- Scenario fixture for the C9 counterexample. -/
def fs9 : FS :=
  { pexists := fun p => p == "/s" || p == "/s/gameoptions.yaml" ||
      p == "/s/description.txt",
    isdir := fun p => p == "/s",
    isfile := fun p => p == "/s/gameoptions.yaml" || p == "/s/description.txt",
    access := fun _ => true,
    getsize := fun _ => .ok 100,
    readf := fun p =>
      if p == "/s/gameoptions.yaml" then .ok "GO9"
      else if p == "/s/description.txt" then .ok "desc" else .error "OSError",
    walk := fun _ => [] }

/-- Parser fixture for C9: a game-options document with two option groups —
the first tagged `ValidFor: [MP]`, the second `ValidFor: [SP, Creative]`. -/
def parse9 : String → Except String Yaml := fun s =>
  if s == "GO9" then
    .ok (.map [("Options", .list
      [mkValidForGroup ["MP"], mkValidForGroup ["SP", "Creative"]])])
  else .error "YAMLError"

/-- C9 counterexample: With groups `[MP]` then `[SP, Creative]`, the
first multiplayer marker does *not* fix the label: the later group
overwrites it, and the preview reports `Single Player` (with
multiplayer-readiness still true). -/
theorem c9_counterexample :
    (ScenarioLoader.get_scenario_preview {} fs9 parse9 "/s").toOption.map
      (fun pd => (pd.game_mode, pd.multiplayer_ready)) =
      some ("Single Player", true)
    ∧ "Single Player" ≠ "Multiplayer" := by decide

/-- C9 (amended): Over well-shaped option groups, the loop of
`get_scenario_preview` sets multiplayer-readiness exactly when some group's
`ValidFor` list contains `MP`, and computes the game-mode label by the
last-relevant-group rule `specGameMode`: within one group `SP`+`Creative`
takes priority over `MP`, and a later relevant group overrides an earlier
one (so the first `MP` marker does not fix the label). -/
theorem c9_amended_last_group_wins (groups : List (List String)) (pd : PreviewData) :
    optionLoop (groups.map mkValidForGroup) pd =
      { pd with
        multiplayer_ready :=
          pd.multiplayer_ready || groups.any (fun g => g.contains "MP"),
        game_mode := specGameMode groups pd.game_mode } := by
  induction groups generalizing pd with
  | nil => simp [optionLoop, specGameMode]
  | cons g rest ih =>
    have h1 : pyIn "ValidFor" (mkValidForGroup g) = .ok true := by
      simp [pyIn, mkValidForGroup]
    have h2 : pyGet (mkValidForGroup g) "ValidFor" = .ok (.list (g.map .str)) := by
      simp [pyGet, mkValidForGroup]
    simp only [List.map_cons, optionLoop, h1, h2, pyIn_str_list]
    by_cases hmp : ("MP" : String) ∈ g <;> by_cases hsp : ("SP" : String) ∈ g <;>
      by_cases hcr : ("Creative" : String) ∈ g <;>
      simp [ih, specGameMode, hmp, hsp, hcr, List.any_cons]

/-- C10: Case-insensitive extension denylist: any path that passes the
lexical traversal check and the allowed-root check but whose final extension
lowercases into the blocked set is rejected by `validate_file_path` with the
file-type-not-allowed ValueError — for either value of `must_exist` — and a
validated path is never returned. -/
theorem c10_blocked_extension (v : PathValidator) (env : Env) (fs : FS)
    (up a : String) (me : Bool)
    (hup : up ≠ "")
    (hlex : check_path_traversal up = .ok ())
    (ha : a = pyAbsPath env (pyExpandUser env (sanitize_path_string up)))
    (hin : v.allowed_root.isSome = true → v.is_within_allowed_root a = true)
    (hext : BLOCKED_EXTENSIONS.contains (pyLower (pySplitExt a).2) = true) :
    v.validate_file_path env fs up me =
      .valueError ("File type not allowed: " ++ pyLower (pySplitExt a).2)
    ∧ ∀ p, v.validate_file_path env fs up me ≠ .ok p := by
  subst ha
  have hmain : v.validate_file_path env fs up me =
      .valueError ("File type not allowed: " ++
        pyLower (pySplitExt (pyAbsPath env (pyExpandUser env
          (sanitize_path_string up)))).2) := by
    simp only [PathValidator.validate_file_path, if_neg hup, hlex]
    rw [if_neg (fun hc => hc.2 (hin hc.1)), if_pos hext]
  exact ⟨hmain, fun p hp => by rw [hmain] at hp; exact VResult.noConfusion hp⟩

/-- Witness for C10: `.EXE` (uppercase) is rejected for both values of
`must_exist`. -/
theorem c10_witness :
    v1.validate_file_path env1 fsEmpty "/home/alice/tool.EXE" true =
      .valueError ("File type not allowed: " ++
        pyLower (pySplitExt "/home/alice/tool.EXE").2)
    ∧ v1.validate_file_path env1 fsEmpty "/home/alice/tool.EXE" false =
      .valueError ("File type not allowed: " ++
        pyLower (pySplitExt "/home/alice/tool.EXE").2) :=
  ⟨(c10_blocked_extension v1 env1 fsEmpty "/home/alice/tool.EXE"
      "/home/alice/tool.EXE" true (by decide) rfl (by decide)
      (fun _ => by decide) (by decide)).1,
   (c10_blocked_extension v1 env1 fsEmpty "/home/alice/tool.EXE"
      "/home/alice/tool.EXE" false (by decide) rfl (by decide)
      (fun _ => by decide) (by decide)).1⟩

end Empyrion
